import Mathlib

/-!
Verification development for the `code-covered` coverage-gap analysis engine.

The Python sources are shallowly embedded:
  * `analyzer/coverage_gaps.py` — data model (`FileCoverage`, `CoverageReport`,
    `UncoveredBlock`, `GapSuggestion`), the report parser, the AST-walking
    `GapAnalyzer`, the `GapSuggestionGenerator` and the `find_coverage_gaps`
    pipeline entry point.
  * `mcp_code_covered/tool.py` — the protocol handler `handle` with its
    priority filter, gating (`_compute_exit_code`), limit truncation and
    result construction.
  * `cli.py` — the `gaps` command's strict-equality priority filter.

Embedding conventions:
  * Python `int` line numbers are `Nat`; Python floats are `Rat`
    (the arithmetic of `coverage_percent` is exact in both).
  * Python sets of ints are deduplicated `List Nat` values (`pyIntSet`);
    only membership, cardinality, `sorted`, `min`/`max` and
    intersection-nonemptiness are used, all of which agree with set
    semantics on a duplicate-free list.
  * CPython's `ast.parse` is an oracle: the analyzer receives
    `Option PyModule` (`none` models a `SyntaxError`).  Each expression
    node carries the string `ast.unparse` would render for it.  The node
    types and per-node fields mirror the `ast` classes the analyzer
    inspects; `ast.walk`'s FIFO traversal is `bfsWalk`.
  * Python's stable `list.sort(key=...)` is modelled by the stable
    `List.insertionSort` with the same lexicographic key, which computes
    the identical list.
  * File reading is an explicit environment `FileSys`; decoded file text is
    supplied as its `splitlines()` list of lines.
-/

/-! ## Character-list string utilities (kernel-computable) -/

/-- Strict lexicographic comparison of char lists by code point, matching
CPython `str.__lt__`. -/
def charListLt : List Char → List Char → Bool
  | [], [] => false
  | [], _ :: _ => true
  | _ :: _, [] => false
  | a :: as, b :: bs =>
    if a.toNat < b.toNat then true
    else if b.toNat < a.toNat then false
    else charListLt as bs

/-- Strict string order used for Python tuple sort keys. -/
def pyStrLt (a b : String) : Prop := charListLt a.data b.data = true

/-- Non-strict string order, used for `sorted(warnings)`. -/
def pyStrLe (a b : String) : Prop := charListLt b.data a.data = false

instance : DecidableRel pyStrLt := fun a b => by unfold pyStrLt; infer_instance
instance : DecidableRel pyStrLe := fun a b => by unfold pyStrLe; infer_instance

theorem charListLt_trans {a b c : List Char} (h1 : charListLt a b = true)
    (h2 : charListLt b c = true) : charListLt a c = true := by
  induction a generalizing b c with
  | nil =>
    cases c with
    | nil =>
      cases b with
      | nil => exact absurd h1 (by simp [charListLt])
      | cons y ys => exact absurd h2 (by simp [charListLt])
    | cons z zs => simp [charListLt]
  | cons x xs ih =>
    cases b with
    | nil => exact absurd h1 (by simp [charListLt])
    | cons y ys =>
      cases c with
      | nil => exact absurd h2 (by simp [charListLt])
      | cons z zs =>
        simp only [charListLt] at h1 h2 ⊢
        split at h1
        · split at h2
          · simp only [if_pos (by omega : x.toNat < z.toNat)]
          · split at h2
            · exact absurd h2 (by simp)
            · simp only [if_pos (by omega : x.toNat < z.toNat)]
        · split at h1
          · exact absurd h1 (by simp)
          · split at h2
            · simp only [if_pos (by omega : x.toNat < z.toNat)]
            · split at h2
              · exact absurd h2 (by simp)
              · have hxz : ¬ x.toNat < z.toNat := by omega
                have hzx : ¬ z.toNat < x.toNat := by omega
                simp only [if_neg hxz, if_neg hzx]
                exact ih h1 h2

theorem charListLt_trichotomy (a b : List Char) :
    charListLt a b = true ∨ a = b ∨ charListLt b a = true := by
  induction a generalizing b with
  | nil =>
    cases b with
    | nil => right; left; rfl
    | cons y ys => left; simp [charListLt]
  | cons x xs ih =>
    cases b with
    | nil => right; right; simp [charListLt]
    | cons y ys =>
      by_cases hlt : x.toNat < y.toNat
      · left; simp [charListLt, hlt]
      · by_cases hgt : y.toNat < x.toNat
        · right; right; simp [charListLt, hgt]
        · have hxy : x = y := by
            have : x.toNat = y.toNat := by omega
            exact Char.ext (by
              apply UInt32.ext
              simpa [Char.toNat, UInt32.toNat] using this)
          subst hxy
          rcases ih ys with h | h | h
          · left; simp [charListLt, h]
          · right; left; rw [h]
          · right; right; simp [charListLt, h]

theorem pyStrLe_trans {a b c : String} (h1 : pyStrLe a b) (h2 : pyStrLe b c) :
    pyStrLe a c := by
  unfold pyStrLe at *
  by_contra h
  have hca : charListLt c.data a.data = true := by
    cases hx : charListLt c.data a.data
    · exact absurd hx h
    · rfl
  rcases charListLt_trichotomy b.data c.data with hbc | hbc | hbc
  · have := charListLt_trans hbc hca
    rw [this] at h1
    exact absurd h1 (by simp)
  · rw [hbc] at h1
    rw [hca] at h1
    exact absurd h1 (by simp)
  · rw [hbc] at h2
    exact absurd h2 (by simp)

theorem charListLt_irrefl (l : List Char) : charListLt l l = false := by
  induction l with
  | nil => rfl
  | cons x xs ih => simp [charListLt, ih]

theorem charListLt_asymm {a b : List Char} (h : charListLt a b = true) :
    charListLt b a = false := by
  cases hx : charListLt b a
  · rfl
  · have := charListLt_trans h hx
    rw [charListLt_irrefl] at this
    exact absurd this (by simp)

theorem pyStrLe_total (a b : String) : pyStrLe a b ∨ pyStrLe b a := by
  unfold pyStrLe
  rcases charListLt_trichotomy a.data b.data with h | h | h
  · left; exact charListLt_asymm h
  · left; rw [h]; exact charListLt_irrefl b.data
  · right; exact charListLt_asymm h

instance : IsTrans String pyStrLe := ⟨fun _ _ _ => pyStrLe_trans⟩
instance : IsTotal String pyStrLe := ⟨pyStrLe_total⟩

/-- Case-fold a string character by character, modelling `str.lower()` on the
ASCII identifiers and snippets this program feeds it. -/
def pyLower (s : String) : String := ⟨s.data.map Char.toLower⟩

/-- Substring test, modelling Python's `needle in haystack`. -/
def pyContains (haystack needle : String) : Bool :=
  haystack.data.tails.any (fun t => needle.data.isPrefixOf t)

/-- Model of `set(xs)` for int lists: deduplicate, keeping set semantics for
membership, length, iteration-free aggregation and `sorted`. -/
def pyIntSet (xs : List Nat) : List Nat := xs.dedup

/-- `sorted(s)` for a modelled int set. -/
def pySorted (xs : List Nat) : List Nat := List.insertionSort (· ≤ ·) xs

/-- `max(s)` over a modelled nonempty int set (0 as the out-of-contract
default, never hit under the guards the source places before calling it). -/
def listMax : List Nat → Nat
  | [] => 0
  | x :: xs => xs.foldl max x

/-- `min(s)` over a modelled nonempty int set. -/
def listMin : List Nat → Nat
  | [] => 0
  | x :: xs => xs.foldl min x

/-! ## Data model (`analyzer/coverage_gaps.py`) -/

/-- `UncoveredBlock` dataclass: a block of uncovered code with context. -/
structure UncoveredBlock where
  file_path : String
  start_line : Nat
  end_line : Nat
  function_name : Option String := none
  class_name : Option String := none
  code_snippet : String := ""
  block_type : String := "unknown"
  condition : Option String := none
deriving DecidableEq, Repr

/-- `GapSuggestion` dataclass: a specific test to write to cover a gap. -/
structure GapSuggestion where
  test_name : String
  test_file : String
  description : String
  covers_lines : List Nat
  priority : String
  code_template : String
  setup_hints : List String := []
  block_type : String := "unknown"
deriving DecidableEq, Repr

/-- `FileCoverage` dataclass: coverage data for a single file.  The line sets
are stored as deduplicated lists (see `pyIntSet`). -/
structure FileCoverage where
  path : String
  covered_lines : List Nat
  missing_lines : List Nat
  excluded_lines : List Nat
  missing_branches : List (Int × Int)
deriving DecidableEq, Repr

/-- `FileCoverage.coverage_percent` property. -/
def FileCoverage.coverage_percent (fc : FileCoverage) : Rat :=
  let total := fc.covered_lines.length + fc.missing_lines.length
  if total = 0 then 100
  else (fc.covered_lines.length : Rat) / (total : Rat) * 100

/-- `CoverageReport` dataclass: parsed coverage report.  `files` is an
association list in document (= Python dict insertion) order. -/
structure CoverageReport where
  files : List (String × FileCoverage)
  total_covered : Nat := 0
  total_missing : Nat := 0
deriving DecidableEq, Repr

/-- `CoverageReport.coverage_percent` property. -/
def CoverageReport.coverage_percent (r : CoverageReport) : Rat :=
  let total := r.total_covered + r.total_missing
  if total = 0 then 100
  else (r.total_covered : Rat) / (total : Rat) * 100

/-- One entry of the `files` mapping of a coverage.json document. -/
structure CovFileData where
  executed_lines : List Nat := []
  missing_lines : List Nat := []
  excluded_lines : List Nat := []
  missing_branches : List (String × List Int) := []
deriving DecidableEq, Repr

/-- A decoded coverage.json document (its `files` mapping, in document
order). -/
structure CovDocument where
  files : List (String × CovFileData)
deriving DecidableEq, Repr

/-- Branch-edge extraction of `CoverageParser.parse`: each mapping key that
parses as an int contributes one `(from_line, to_line)` edge per target;
unparseable keys are skipped. -/
def parseBranches (bs : List (String × List Int)) : List (Int × Int) :=
  bs.flatMap (fun kv =>
    match kv.1.toInt? with
    | some fromLine => kv.2.map (fun toLine => (fromLine, toLine))
    | none => [])

/-- `CoverageParser.parse`, starting from the decoded JSON document (the
file-open/JSON-decode step is the oracle boundary of the embedding). -/
def CoverageParser.parse (doc : CovDocument) : CoverageReport :=
  let files := doc.files.map (fun fd =>
    let executed := pyIntSet fd.2.executed_lines
    let missing := pyIntSet fd.2.missing_lines
    let excluded := pyIntSet fd.2.excluded_lines
    (fd.1, { path := fd.1
             covered_lines := executed
             missing_lines := missing
             excluded_lines := excluded
             missing_branches := parseBranches fd.2.missing_branches }))
  { files := files
    total_covered := (files.map (fun f => f.2.covered_lines.length)).sum
    total_missing := (files.map (fun f => f.2.missing_lines.length)).sum }

/-! ## Python AST fragment

The constructors mirror the `ast` node classes `GapAnalyzer` dispatches on.
Every node carries its `lineno`/`end_lineno`.  Expression nodes carry the
text `ast.unparse` renders for them (the unparser itself is outside the
embedding).  `funcDef` models both `FunctionDef` and `AsyncFunctionDef`,
whose visitors are identical.  Function parameter nodes are omitted: the
`arguments` wrapper has no `lineno` (so `_analyze_node` ignores it) and the
inner `arg` nodes appear one BFS level below the statements sharing their
lines, so they can never preempt a block-emitting statement's span
registration and emit nothing themselves. -/

/-- Expressions: `name` is `ast.Name`; `callName` is an `ast.Call` whose
`func` is an `ast.Name` (`sub` lists its child nodes in field order);
`atom` is any other expression with its child expression nodes. -/
inductive PyExpr where
  | name (id : String) (lineno endLineno : Nat)
  | callName (fid : String) (srcText : String) (lineno endLineno : Nat) (sub : List PyExpr)
  | atom (srcText : String) (lineno endLineno : Nat) (sub : List PyExpr)

/-- Statements.  `exceptHandler` is `ast.ExceptHandler` (a `Try` child);
`exprStmt` models any statement the analyzer does not dispatch on
(assignments, expression statements, ...), carrying its child
expressions. -/
inductive PyStmt where
  | funcDef (name : String) (lineno endLineno : Nat) (body : List PyStmt)
  | classDef (name : String) (lineno endLineno : Nat) (body : List PyStmt)
  | ifStmt (lineno endLineno : Nat) (test : PyExpr) (body orelse : List PyStmt)
  | ret (lineno endLineno : Nat) (value : Option PyExpr)
  | raiseStmt (lineno endLineno : Nat) (exc : Option PyExpr)
  | forStmt (lineno endLineno : Nat) (target iter : PyExpr) (body orelse : List PyStmt)
  | whileStmt (lineno endLineno : Nat) (test : PyExpr) (body orelse : List PyStmt)
  | tryStmt (lineno endLineno : Nat) (body handlers orelse finalbody : List PyStmt)
  | exceptHandler (lineno endLineno : Nat) (type : Option PyExpr) (body : List PyStmt)
  | exprStmt (lineno endLineno : Nat) (sub : List PyExpr)

/-- A parsed module (`ast.Module`). -/
structure PyModule where
  body : List PyStmt

/-- A node of the walk (`ast.walk` yields statements and expressions
alike). -/
inductive PyNode where
  | stmt (s : PyStmt)
  | expr (e : PyExpr)

def PyExpr.lineno : PyExpr → Nat
  | .name _ l _ => l
  | .callName _ _ l _ _ => l
  | .atom _ l _ _ => l

def PyExpr.endLineno : PyExpr → Nat
  | .name _ _ e => e
  | .callName _ _ _ e _ => e
  | .atom _ _ e _ => e

def PyStmt.lineno : PyStmt → Nat
  | .funcDef _ l _ _ => l
  | .classDef _ l _ _ => l
  | .ifStmt l _ _ _ _ => l
  | .ret l _ _ => l
  | .raiseStmt l _ _ => l
  | .forStmt l _ _ _ _ _ => l
  | .whileStmt l _ _ _ _ => l
  | .tryStmt l _ _ _ _ _ => l
  | .exceptHandler l _ _ _ => l
  | .exprStmt l _ _ => l

def PyStmt.endLineno : PyStmt → Nat
  | .funcDef _ _ e _ => e
  | .classDef _ _ e _ => e
  | .ifStmt _ e _ _ _ => e
  | .ret _ e _ => e
  | .raiseStmt _ e _ => e
  | .forStmt _ e _ _ _ _ => e
  | .whileStmt _ e _ _ _ => e
  | .tryStmt _ e _ _ _ _ => e
  | .exceptHandler _ e _ _ => e
  | .exprStmt _ e _ => e

def PyNode.lineno : PyNode → Nat
  | .stmt s => s.lineno
  | .expr e => e.lineno

def PyNode.endLineno : PyNode → Nat
  | .stmt s => s.endLineno
  | .expr e => e.endLineno

/-! Sizes, for the walk's fuel. -/

mutual
def exprSize : PyExpr → Nat
  | .name .. => 1
  | .callName _ _ _ _ sub => 1 + exprsSize sub
  | .atom _ _ _ sub => 1 + exprsSize sub
def exprsSize : List PyExpr → Nat
  | [] => 0
  | e :: es => exprSize e + exprsSize es
end

def optExprSize : Option PyExpr → Nat
  | none => 0
  | some e => exprSize e

mutual
def stmtSize : PyStmt → Nat
  | .funcDef _ _ _ b => 1 + stmtsSize b
  | .classDef _ _ _ b => 1 + stmtsSize b
  | .ifStmt _ _ t b o => 1 + exprSize t + stmtsSize b + stmtsSize o
  | .ret _ _ v => 1 + optExprSize v
  | .raiseStmt _ _ v => 1 + optExprSize v
  | .forStmt _ _ tg it b o => 1 + exprSize tg + exprSize it + stmtsSize b + stmtsSize o
  | .whileStmt _ _ t b o => 1 + exprSize t + stmtsSize b + stmtsSize o
  | .tryStmt _ _ b h o f => 1 + stmtsSize b + stmtsSize h + stmtsSize o + stmtsSize f
  | .exceptHandler _ _ t b => 1 + optExprSize t + stmtsSize b
  | .exprStmt _ _ es => 1 + exprsSize es
def stmtsSize : List PyStmt → Nat
  | [] => 0
  | s :: ss => stmtSize s + stmtsSize ss
end

def nodeSize : PyNode → Nat
  | .stmt s => stmtSize s
  | .expr e => exprSize e

/-- `ast.iter_child_nodes`, in AST field order. -/
def exprChildren : PyExpr → List PyNode
  | .name .. => []
  | .callName _ _ _ _ sub => sub.map .expr
  | .atom _ _ _ sub => sub.map .expr

/-- `ast.iter_child_nodes` for statements, in AST field order. -/
def stmtChildren : PyStmt → List PyNode
  | .funcDef _ _ _ b => b.map .stmt
  | .classDef _ _ _ b => b.map .stmt
  | .ifStmt _ _ t b o => .expr t :: (b.map .stmt ++ o.map .stmt)
  | .ret _ _ v => (v.map fun e => [PyNode.expr e]).getD []
  | .raiseStmt _ _ v => (v.map fun e => [PyNode.expr e]).getD []
  | .forStmt _ _ tg it b o => .expr tg :: .expr it :: (b.map .stmt ++ o.map .stmt)
  | .whileStmt _ _ t b o => .expr t :: (b.map .stmt ++ o.map .stmt)
  | .tryStmt _ _ b h o f => b.map .stmt ++ h.map .stmt ++ o.map .stmt ++ f.map .stmt
  | .exceptHandler _ _ t b => ((t.map fun e => [PyNode.expr e]).getD []) ++ b.map .stmt
  | .exprStmt _ _ es => es.map .expr

def nodeChildren : PyNode → List PyNode
  | .stmt s => stmtChildren s
  | .expr e => exprChildren e

def nodesSize (q : List PyNode) : Nat := (q.map nodeSize).sum

/-- FIFO breadth-first enumeration, fuel-driven so that it computes by
kernel reduction.  One fuel unit is spent per level; `bfsWalk` supplies the
root's size, an upper bound on the level count. -/
def bfsAux : Nat → List PyNode → List PyNode
  | 0, _ => []
  | _, [] => []
  | fuel + 1, q => q ++ bfsAux fuel (q.flatMap nodeChildren)

/-- `ast.walk(node)`: the node itself, then its descendants in FIFO
(breadth-first) order. -/
def bfsWalk (n : PyNode) : List PyNode := bfsAux (nodeSize n) [n]

@[simp] theorem nodeSize_stmt (s : PyStmt) : nodeSize (.stmt s) = stmtSize s := rfl
@[simp] theorem nodeSize_expr (e : PyExpr) : nodeSize (.expr e) = exprSize e := rfl

@[simp] theorem exprsSize_eq_sum (es : List PyExpr) : (es.map exprSize).sum = exprsSize es := by
  induction es with
  | nil => simp [exprsSize]
  | cons e es ih => simp [exprsSize, ih]

@[simp] theorem stmtsSize_eq_sum (ss : List PyStmt) : (ss.map stmtSize).sum = stmtsSize ss := by
  induction ss with
  | nil => simp [stmtsSize]
  | cons s ss ih => simp [stmtsSize, ih]

theorem exprSize_pos (e : PyExpr) : 1 ≤ exprSize e := by
  cases e <;> simp [exprSize] <;> omega

theorem stmtSize_pos (s : PyStmt) : 1 ≤ stmtSize s := by
  cases s <;> simp [stmtSize] <;> omega

theorem nodeSize_pos (n : PyNode) : 1 ≤ nodeSize n := by
  cases n with
  | stmt s => exact stmtSize_pos s
  | expr e => exact exprSize_pos e

theorem children_size_lt (n : PyNode) : nodesSize (nodeChildren n) < nodeSize n := by
  have hopt : ∀ (v : Option PyExpr),
      (List.map nodeSize ((v.map fun e => [PyNode.expr e]).getD [])).sum = optExprSize v := by
    intro v; cases v <;> simp [optExprSize]
  cases n with
  | stmt s =>
    cases s <;>
      simp [nodeChildren, stmtChildren, nodeSize, stmtSize, nodesSize, hopt,
        List.map_map, Function.comp_def] <;>
      omega
  | expr e =>
    cases e <;>
      simp [nodeChildren, exprChildren, nodeSize, exprSize, nodesSize,
        List.map_map, Function.comp_def] <;>
      omega

theorem nodesSize_flatMap_le (q : List PyNode) :
    nodesSize (q.flatMap nodeChildren) ≤ nodesSize q := by
  induction q with
  | nil => simp [nodesSize]
  | cons n rest ih =>
    have h := children_size_lt n
    simp only [List.flatMap_cons, nodesSize, List.map_append, List.sum_append,
      List.map_cons, List.sum_cons] at *
    omega

/-- Any fuel of at least the queue's total size yields the same (complete)
breadth-first enumeration, so `bfsWalk`'s fuel choice is immaterial. -/
theorem bfsAux_fuel_invariant (f1 : Nat) : ∀ (f2 : Nat) (q : List PyNode),
    nodesSize q ≤ f1 → nodesSize q ≤ f2 → bfsAux f1 q = bfsAux f2 q := by
  induction f1 using Nat.strong_induction_on with
  | _ f1 ih =>
    intro f2 q h1 h2
    match q with
    | [] => cases f1 <;> cases f2 <;> rfl
    | n :: rest =>
      have hpos : 1 ≤ nodesSize (n :: rest) := by
        have := nodeSize_pos n
        simp only [nodesSize, List.map_cons, List.sum_cons]
        omega
      have hlt : nodesSize ((n :: rest).flatMap nodeChildren) < nodesSize (n :: rest) := by
        have h := children_size_lt n
        have h2' := nodesSize_flatMap_le rest
        simp only [List.flatMap_cons, nodesSize, List.map_append, List.sum_append,
          List.map_cons, List.sum_cons] at *
        omega
      obtain ⟨ff1, rfl⟩ : ∃ k, f1 = k + 1 := ⟨f1 - 1, by omega⟩
      obtain ⟨ff2, rfl⟩ : ∃ k, f2 = k + 1 := ⟨f2 - 1, by omega⟩
      simp only [bfsAux]
      congr 1
      exact ih ff1 (by omega) ff2 _ (by omega) (by omega)

/-! ## `GapAnalyzer` (analyzer/coverage_gaps.py, lines 174–416) -/

/-- The analyzer's per-run constructor data: `source_code` (as its
`splitlines()` line list), `missing_lines`, and the `file_path` set by
`analyze`. -/
structure AnCtx where
  filePath : String
  sourceLines : List String
  missingLines : List Nat

/-- The analyzer's mutable visitor state: ancestor context, the per-run
deduplication set `_seen_blocks` (kept in insertion order), and the emitted
`uncovered_blocks`. -/
structure AnState where
  currentClass : Option String := none
  currentFunction : Option String := none
  seen : List (Nat × Nat) := []
  blocks : List UncoveredBlock := []
deriving DecidableEq, Repr

/-- `_get_code_snippet`: `"\n".join(source_lines[start-1:end])`. -/
def getCodeSnippet (ctx : AnCtx) (start stop : Nat) : String :=
  String.intercalate "\n" ((ctx.sourceLines.drop (start - 1)).take (stop - (start - 1)))

/-- `_get_source_segment` = `ast.unparse`; each expression node carries its
rendering, so the `except`-fallback `"..."` is unreachable in the model. -/
def getSourceSegment : PyExpr → String
  | .name id _ _ => id
  | .callName _ srcText _ _ _ => srcText
  | .atom srcText _ _ _ => srcText

/-- `_analyze_if` (lines 292–331). -/
def analyzeIf (ctx : AnCtx) (st : AnState) (lineno : Nat) (test : PyExpr)
    (body orelse : List PyStmt) : AnState :=
  let condition := getSourceSegment test
  let ifBodyLines := body.map PyStmt.lineno
  let elseBodyLines := orelse.map PyStmt.lineno
  let st1 :=
    if ifBodyLines.any (fun l => l ∈ ctx.missingLines) then
      let endLine := if ifBodyLines.isEmpty then lineno else listMax ifBodyLines
      { st with blocks := st.blocks ++ [{
          file_path := ctx.filePath
          start_line := lineno
          end_line := endLine
          function_name := st.currentFunction
          class_name := st.currentClass
          code_snippet := getCodeSnippet ctx lineno endLine
          block_type := "if_true_branch"
          condition := some s!"when {condition} is True" }] }
    else st
  if elseBodyLines.any (fun l => l ∈ ctx.missingLines) then
    let start := listMin elseBodyLines
    let stop := listMax elseBodyLines
    { st1 with blocks := st1.blocks ++ [{
        file_path := ctx.filePath
        start_line := start
        end_line := stop
        function_name := st1.currentFunction
        class_name := st1.currentClass
        code_snippet := getCodeSnippet ctx start stop
        block_type := "if_false_branch"
        condition := some s!"when {condition} is False" }] }
  else st1

/-- `_analyze_except` (lines 333–349). -/
def analyzeExcept (ctx : AnCtx) (st : AnState) (lineno endLineno : Nat)
    (type : Option PyExpr) : AnState :=
  let excType := match type with
    | none => "Exception"
    | some t => getSourceSegment t
  { st with blocks := st.blocks ++ [{
      file_path := ctx.filePath
      start_line := lineno
      end_line := endLineno
      function_name := st.currentFunction
      class_name := st.currentClass
      code_snippet := getCodeSnippet ctx lineno endLineno
      block_type := "exception_handler"
      condition := some s!"when {excType} is raised" }] }

/-- `_analyze_return` (lines 351–366). -/
def analyzeReturn (ctx : AnCtx) (st : AnState) (lineno : Nat)
    (value : Option PyExpr) : AnState :=
  let v := match value with
    | none => "None"
    | some e => getSourceSegment e
  { st with blocks := st.blocks ++ [{
      file_path := ctx.filePath
      start_line := lineno
      end_line := lineno
      function_name := st.currentFunction
      class_name := st.currentClass
      code_snippet := getCodeSnippet ctx lineno lineno
      block_type := "return_statement"
      condition := some s!"return {v}" }] }

/-- `_analyze_raise` (lines 368–386): the type name is recovered only from a
call of a named constructor or a bare name. -/
def analyzeRaise (ctx : AnCtx) (st : AnState) (lineno : Nat)
    (exc : Option PyExpr) : AnState :=
  let excType := match exc with
    | some (.callName fid _ _ _ _) => fid
    | some (.name id _ _) => id
    | _ => "Exception"
  { st with blocks := st.blocks ++ [{
      file_path := ctx.filePath
      start_line := lineno
      end_line := lineno
      function_name := st.currentFunction
      class_name := st.currentClass
      code_snippet := getCodeSnippet ctx lineno lineno
      block_type := "raise_statement"
      condition := some s!"raise {excType}" }] }

/-- `_analyze_loop` (lines 388–401). -/
def analyzeLoop (ctx : AnCtx) (st : AnState) (lineno endLineno : Nat)
    (loopType : String) : AnState :=
  { st with blocks := st.blocks ++ [{
      file_path := ctx.filePath
      start_line := lineno
      end_line := endLineno
      function_name := st.currentFunction
      class_name := st.currentClass
      code_snippet := getCodeSnippet ctx lineno endLineno
      block_type := loopType ++ "_loop" }] }

/-- `_analyze_node` (lines 265–291): skip nodes off the missing set, then
deduplicate on the node's `(lineno, end_lineno)` pair before dispatching on
the node class.  (Every modelled node has a `lineno`, matching the `hasattr`
guard; `end_lineno` is always populated by CPython's parser, so
`getattr(..., line) or line` is just `end_lineno`.) -/
def analyzeNode (ctx : AnCtx) (st : AnState) (n : PyNode) : AnState :=
  let line := n.lineno
  if line ∈ ctx.missingLines then
    let endLine := n.endLineno
    let blockKey := (line, endLine)
    if blockKey ∈ st.seen then st
    else
      let st' := { st with seen := st.seen ++ [blockKey] }
      match n with
      | .stmt (.ifStmt l _ t b o) => analyzeIf ctx st' l t b o
      | .stmt (.exceptHandler l e t _) => analyzeExcept ctx st' l e t
      | .stmt (.ret l _ v) => analyzeReturn ctx st' l v
      | .stmt (.raiseStmt l _ v) => analyzeRaise ctx st' l v
      | .stmt (.forStmt l e _ _ _ _) => analyzeLoop ctx st' l e "for"
      | .stmt (.whileStmt l e _ _ _) => analyzeLoop ctx st' l e "while"
      | _ => st'
  else st

/-! `visit` / `generic_visit` dispatch (`ast.NodeVisitor`), together with
`visit_ClassDef`, `visit_FunctionDef` / `visit_AsyncFunctionDef` and
`_analyze_function` (lines 230–263).  `generic_visit` recurses into child
statements in field order; visiting expression nodes is the identity (no
statement can occur inside a modelled expression), so it is elided.  For a
function definition whose `range(lineno, end_lineno+1)` meets the missing
set, every walked descendant is fed to `_analyze_node` before
`generic_visit` recurses (so nodes of nested functions are first analyzed
under the outer function's name, as in the source). -/

mutual
/-- Visitor dispatch for one statement (see the section comment above). -/
def visitStmt (ctx : AnCtx) (st : AnState) : PyStmt → AnState
  | .classDef name l e body =>
    let st1 := { st with currentClass := some name }
    let st2 := visitStmts ctx st1 body
    { st2 with currentClass := st.currentClass }
  | .funcDef name l e body =>
    let st1 := { st with currentFunction := some name }
    let st2 :=
      if ctx.missingLines.any (fun x => l ≤ x && x ≤ e) then
        (bfsWalk (.stmt (.funcDef name l e body))).foldl (analyzeNode ctx) st1
      else st1
    let st3 := visitStmts ctx st2 body
    { st3 with currentFunction := st.currentFunction }
  | .ifStmt _ _ _ b o => visitStmts ctx (visitStmts ctx st b) o
  | .forStmt _ _ _ _ b o => visitStmts ctx (visitStmts ctx st b) o
  | .whileStmt _ _ _ b o => visitStmts ctx (visitStmts ctx st b) o
  | .tryStmt _ _ b h o f =>
    visitStmts ctx (visitStmts ctx (visitStmts ctx (visitStmts ctx st b) h) o) f
  | .exceptHandler _ _ _ b => visitStmts ctx st b
  | .ret _ _ _ => st
  | .raiseStmt _ _ _ => st
  | .exprStmt _ _ _ => st
/-- Left-to-right visit of a statement list (`generic_visit` order). -/
def visitStmts (ctx : AnCtx) (st : AnState) : List PyStmt → AnState
  | [] => st
  | s :: rest => visitStmts ctx (visitStmt ctx st s) rest
end

/-- The `while`-loop of `_analyze_by_lines` (lines 208–218), grouping the
sorted missing lines into runs of consecutive integers. -/
def groupConsecutiveGo : List Nat → List Nat → List (List Nat) → List (List Nat)
  | [], currentGroup, groups => groups ++ [currentGroup]
  | l :: rest, currentGroup, groups =>
    if l = currentGroup.getLastD 0 + 1 then
      groupConsecutiveGo rest (currentGroup ++ [l]) groups
    else
      groupConsecutiveGo rest [l] (groups ++ [currentGroup])

/-- Grouping step of `_analyze_by_lines`: empty input yields no groups (the
source's early `return`); otherwise seed `current_group` with the first
line. -/
def groupConsecutive : List Nat → List (List Nat)
  | [] => []
  | x :: rest => groupConsecutiveGo rest [x] []

/-- `_analyze_by_lines` (lines 202–228): the syntax-error fallback. -/
def analyzeByLines (ctx : AnCtx) : List UncoveredBlock :=
  (groupConsecutive (pySorted ctx.missingLines)).map (fun group =>
    { file_path := ctx.filePath
      start_line := group.headD 0
      end_line := group.getLastD 0
      code_snippet := getCodeSnippet ctx (group.headD 0) (group.getLastD 0)
      block_type := "code_block" })

/-- `GapAnalyzer.analyze` (lines 189–200): parse success walks the tree,
`SyntaxError` falls back to line grouping; either way it returns (never
raises). -/
def GapAnalyzer.analyze (ctx : AnCtx) (parsed : Option PyModule) : List UncoveredBlock :=
  match parsed with
  | some m => (visitStmts ctx {} m.body).blocks
  | none => analyzeByLines ctx

/-! ## String helpers for the generator (`str.split`, `str.replace`, regex
substitution).  These recursions are fuel-driven (fuel = input length, always
sufficient since each step consumes at least one character) so that they
compute by kernel reduction. -/

/-- Truthiness of an optional string (`if s:` in Python). -/
def pyTruthy : Option String → Bool
  | some s => s ≠ ""
  | none => false

def splitSubAux (sep : List Char) : Nat → List Char → List Char → List (List Char)
  | _, [], acc => [acc.reverse]
  | 0, l, acc => [acc.reverse ++ l]
  | fuel + 1, c :: rest, acc =>
    if sep ≠ [] && sep.isPrefixOf (c :: rest) then
      acc.reverse :: splitSubAux sep fuel (rest.drop (sep.length - 1)) []
    else
      splitSubAux sep fuel rest (c :: acc)

/-- `s.split(sep)` for a nonempty separator. -/
def pySplit (s sep : String) : List String :=
  (splitSubAux sep.data s.data.length s.data []).map (fun l => ⟨l⟩)

def replaceAux (old new : List Char) : Nat → List Char → List Char
  | _, [] => []
  | 0, l => l
  | fuel + 1, c :: rest =>
    if old ≠ [] && old.isPrefixOf (c :: rest) then
      new ++ replaceAux old new fuel (rest.drop (old.length - 1))
    else
      c :: replaceAux old new fuel rest

/-- `s.replace(old, new)` for a nonempty pattern. -/
def pyReplace (s old new : String) : String :=
  ⟨replaceAux old.data new.data s.data.length s.data⟩

/-- One `re.sub` pass for `_CAMEL_RE1 = (.)([A-Z][a-z]+)` replaced by
`\1_\2`: left-to-right, non-overlapping, greedy lowercase run, resuming
after each match. -/
def re1SubAux : Nat → List Char → List Char
  | 0, l => l
  | _, [] => []
  | fuel + 1, c1 :: rest =>
    match rest with
    | [] => [c1]
    | c2 :: rest2 =>
      let run := rest2.takeWhile (fun c => c.isLower)
      if c2.isUpper && !run.isEmpty then
        c1 :: '_' :: c2 :: (run ++ re1SubAux fuel (rest2.drop run.length))
      else
        c1 :: re1SubAux fuel rest

/-- One `re.sub` pass for `_CAMEL_RE2 = ([a-z0-9])([A-Z])` replaced by
`\1_\2`. -/
def re2SubAux : Nat → List Char → List Char
  | 0, l => l
  | _, [] => []
  | fuel + 1, c1 :: rest =>
    match rest with
    | [] => [c1]
    | c2 :: rest2 =>
      if (c1.isLower || c1.isDigit) && c2.isUpper then
        c1 :: '_' :: c2 :: re2SubAux fuel rest2
      else
        c1 :: re2SubAux fuel rest

/-- `_to_snake_case` (lines 712–715): the two regex passes, then
`.lower()`. -/
def toSnakeCase (name : String) : String :=
  let s1 := re1SubAux name.data.length name.data
  pyLower ⟨re2SubAux s1.length s1⟩

/-! ## `GapSuggestionGenerator` (lines 419–715) -/

/-- The `type_suffixes` table of `_generate_test_name`. -/
def typeSuffixes : List (String × String) :=
  [("if_true_branch", "when_condition_true"),
   ("if_false_branch", "when_condition_false"),
   ("exception_handler", "handles_exception"),
   ("raise_statement", "raises_error"),
   ("return_statement", "returns_early"),
   ("for_loop", "iterates_items"),
   ("while_loop", "loops_until_done")]

/-- `_generate_test_name` (lines 472–495). -/
def generateTestName (block : UncoveredBlock) : String :=
  let parts := ["test"]
    ++ (match block.class_name with
        | some c => if c ≠ "" then [toSnakeCase c] else []
        | none => [])
    ++ (match block.function_name with
        | some f => if f ≠ "" then [f] else []
        | none => [])
    ++ (let suffix := ((typeSuffixes.lookup block.block_type).getD "")
        if suffix ≠ "" then [suffix] else [])
  String.intercalate "_" parts

/-- `_determine_priority` (lines 497–508). -/
def determinePriority (block : UncoveredBlock) : String :=
  if block.block_type = "exception_handler" ∨ block.block_type = "raise_statement" then
    "critical"
  else if block.block_type = "if_true_branch" ∨ block.block_type = "if_false_branch" then
    "high"
  else if pyTruthy block.function_name then
    "medium"
  else
    "low"

/-- `_exception_test_template` (lines 524–556). -/
def exceptionTestTemplate (func : String) (cls : Option String) (block : UncoveredBlock) : String :=
  let excType :=
    match block.condition with
    | some c =>
      if c ≠ "" && pyContains c "when " then
        pyReplace ((pySplit c "when ").getLastD "") " is raised" ""
      else "Exception"
    | none => "Exception"
  let testName := generateTestName block
  match cls with
  | some clsName =>
    String.intercalate "\n" [
      s!"def {testName}():",
      s!"    \"\"\"Test that {clsName}.{func} handles {excType}.\"\"\"",
      s!"    instance = {clsName}()  # TODO: Add constructor args",
      "",
      s!"    # Arrange: Set up conditions to trigger {excType}",
      s!"    # TODO: Mock dependencies to raise {excType}",
      "",
      "    # Act",
      s!"    result = instance.{func}()  # TODO: Add args",
      "",
      "    # Assert: Verify exception was handled correctly",
      "    # TODO: Add assertions",
      ""]
  | none =>
    String.intercalate "\n" [
      s!"def {testName}():",
      s!"    \"\"\"Test that {func} handles {excType}.\"\"\"",
      s!"    # Arrange: Set up conditions to trigger {excType}",
      s!"    # TODO: Mock dependencies to raise {excType}",
      "",
      "    # Act",
      s!"    result = {func}()  # TODO: Add args",
      "",
      "    # Assert: Verify exception was handled correctly",
      "    # TODO: Add assertions",
      ""]

/-- `_raise_test_template` (lines 558–589). -/
def raiseTestTemplate (func : String) (cls : Option String) (block : UncoveredBlock) : String :=
  let excType :=
    match block.condition with
    | some c =>
      if c ≠ "" && pyContains c "raise " then
        (pySplit c "raise ").getLastD ""
      else "Exception"
    | none => "Exception"
  let testName := generateTestName block
  match cls with
  | some clsName =>
    String.intercalate "\n" [
      s!"def {testName}():",
      s!"    \"\"\"Test that {clsName}.{func} raises {excType}.\"\"\"",
      "    import pytest",
      s!"    instance = {clsName}()  # TODO: Add constructor args",
      "",
      "    # Arrange: Set up invalid inputs",
      "    # TODO: Determine what inputs trigger the error",
      "",
      "    # Act & Assert",
      s!"    with pytest.raises({excType}):",
      s!"        instance.{func}()  # TODO: Add args that trigger error",
      ""]
  | none =>
    String.intercalate "\n" [
      s!"def {testName}():",
      s!"    \"\"\"Test that {func} raises {excType}.\"\"\"",
      "    import pytest",
      "",
      "    # Arrange: Set up invalid inputs",
      "    # TODO: Determine what inputs trigger the error",
      "",
      "    # Act & Assert",
      s!"    with pytest.raises({excType}):",
      s!"        {func}()  # TODO: Add args that trigger error",
      ""]

/-- `_branch_test_template` (lines 591–621). -/
def branchTestTemplate (func : String) (cls : Option String) (block : UncoveredBlock) : String :=
  let condition :=
    match block.condition with
    | some c => if c ≠ "" then c else "the condition"
    | none => "the condition"
  let testName := generateTestName block
  match cls with
  | some clsName =>
    String.intercalate "\n" [
      s!"def {testName}():",
      s!"    \"\"\"Test {clsName}.{func} {condition}.\"\"\"",
      s!"    instance = {clsName}()  # TODO: Add constructor args",
      "",
      s!"    # Arrange: Set up inputs so that {condition}",
      "    # TODO: Determine inputs that satisfy this condition",
      "",
      "    # Act",
      s!"    result = instance.{func}()  # TODO: Add args",
      "",
      "    # Assert",
      s!"    # TODO: Verify behavior when {condition}",
      ""]
  | none =>
    String.intercalate "\n" [
      s!"def {testName}():",
      s!"    \"\"\"Test {func} {condition}.\"\"\"",
      s!"    # Arrange: Set up inputs so that {condition}",
      "    # TODO: Determine inputs that satisfy this condition",
      "",
      "    # Act",
      s!"    result = {func}()  # TODO: Add args",
      "",
      "    # Assert",
      s!"    # TODO: Verify behavior when {condition}",
      ""]

/-- `_generic_test_template` (lines 623–651). -/
def genericTestTemplate (func : String) (cls : Option String) (block : UncoveredBlock) : String :=
  let testName := generateTestName block
  let startLine := block.start_line
  let endLine := block.end_line
  match cls with
  | some clsName =>
    String.intercalate "\n" [
      s!"def {testName}():",
      s!"    \"\"\"Test {clsName}.{func} (lines {startLine}-{endLine}).\"\"\"",
      s!"    instance = {clsName}()  # TODO: Add constructor args",
      "",
      "    # Arrange",
      "    # TODO: Set up test data",
      "",
      "    # Act",
      s!"    result = instance.{func}()  # TODO: Add args",
      "",
      "    # Assert",
      "    # TODO: Add assertions",
      ""]
  | none =>
    String.intercalate "\n" [
      s!"def {testName}():",
      s!"    \"\"\"Test {func} (lines {startLine}-{endLine}).\"\"\"",
      "    # Arrange",
      "    # TODO: Set up test data",
      "",
      "    # Act",
      s!"    result = {func}()  # TODO: Add args",
      "",
      "    # Assert",
      "    # TODO: Add assertions",
      ""]

/-- `_generate_template` (lines 510–522); `block.class_name` is passed as-is
and templates branch on `if cls:` truthiness, modelled by normalizing a
falsy class to `none`. -/
def generateTemplate (block : UncoveredBlock) : String :=
  let func := match block.function_name with
    | some f => if f ≠ "" then f else "function_under_test"
    | none => "function_under_test"
  let cls := match block.class_name with
    | some c => if c ≠ "" then some c else none
    | none => none
  if block.block_type = "exception_handler" then
    exceptionTestTemplate func cls block
  else if block.block_type = "raise_statement" then
    raiseTestTemplate func cls block
  else if block.block_type = "if_true_branch" ∨ block.block_type = "if_false_branch" then
    branchTestTemplate func cls block
  else
    genericTestTemplate func cls block

/-- `_generate_hints` (lines 653–677): fixed substring triggers over the
lower-cased snippet, in source order. -/
def generateHints (block : UncoveredBlock) : List String :=
  let sl := pyLower block.code_snippet
  (if pyContains sl "request" || pyContains sl "http" then
    ["Mock HTTP requests with responses or httpx"] else [])
  ++ (if pyContains sl "open(" || pyContains sl "path" then
    ["Mock file operations with tmp_path fixture"] else [])
  ++ (if pyContains sl "await" || pyContains sl "async" then
    ["Use @pytest.mark.asyncio decorator"] else [])
  ++ (if pyContains sl "database" || pyContains sl "cursor" || pyContains sl "session" then
    ["Mock database connections"] else [])
  ++ (if pyContains sl "datetime" || pyContains sl "time." then
    ["Use freezegun or mock datetime.now()"] else [])
  ++ (if pyContains sl "random" then
    ["Seed random or mock random functions"] else [])
  ++ (if pyContains sl "environ" || pyContains sl "getenv" then
    ["Use monkeypatch.setenv() for env vars"] else [])
  ++ (if pyContains sl "subprocess" || pyContains sl "popen" then
    ["Mock subprocess calls"] else [])
  ++ (if pyContains sl "socket" then
    ["Mock socket connections"] else [])

/-- `_generate_description` (lines 679–694). -/
def generateDescription (block : UncoveredBlock) : String :=
  let startLine := block.start_line
  let endLine := block.end_line
  let parts :=
    (if pyTruthy block.function_name then
      let f := (block.function_name.getD "")
      if pyTruthy block.class_name then
        let c := (block.class_name.getD "")
        [s!"In {c}.{f}()"]
      else
        [s!"In {f}()"]
    else [])
    ++ [s!"lines {startLine}-{endLine}"]
    ++ (if pyTruthy block.condition then
          let c := block.condition.getD ""
          [s!"- {c}"]
        else [])
  String.intercalate " " parts

/-- `PurePosixPath(p).parts` for the relative POSIX paths this program
handles: split on `/`, dropping empty and `.` components (pathlib
normalizes both away). -/
def pathParts (p : String) : List String :=
  (pySplit p "/").filter (fun seg => seg ≠ "" && seg ≠ ".")

/-- `PurePosixPath(name).stem`: the final component minus its suffix; a
suffix exists when the last dot sits strictly inside the name. -/
def pathStem (name : String) : String :=
  let cs := name.data
  let dotIdxs := (List.range cs.length).filter (fun i => cs.getD i ' ' == '.')
  match dotIdxs.getLast? with
  | some i => if 0 < i ∧ i + 1 < cs.length then ⟨cs.take i⟩ else name
  | none => name

/-- `_suggest_test_file` (lines 696–710). -/
def suggestTestFile (sourcePath : String) : String :=
  let parts := pathParts sourcePath
  let stem := pathStem (parts.getLastD "")
  if parts.length ≥ 2 then
    let parent := parts.getD (parts.length - 2) ""
    if ¬ (parent = "src" ∨ parent = "lib" ∨ parent = "." ∨ parent = "app") then
      "tests/test_" ++ parent ++ "_" ++ stem ++ ".py"
    else
      "tests/test_" ++ stem ++ ".py"
  else
    "tests/test_" ++ stem ++ ".py"

/-- `_create_suggestion` (lines 449–470); the `Optional` return is always a
suggestion in the source, and the caller's `if suggestion:` keeps it. -/
def createSuggestion (block : UncoveredBlock) (filePath : String) : Option GapSuggestion :=
  some { test_name := generateTestName block
         test_file := suggestTestFile filePath
         description := generateDescription block
         covers_lines := List.range' block.start_line (block.end_line + 1 - block.start_line)
         priority := determinePriority block
         code_template := generateTemplate block
         setup_hints := generateHints block
         block_type := block.block_type }

/-- The `priority_order` ranking of `generate` (line 440):
`{"critical": 0, "high": 1, "medium": 2, "low": 3}.get(p, 4)`. -/
def priorityRank (p : String) : Nat :=
  ((([("critical", 0), ("high", 1), ("medium", 2), ("low", 3)] : List (String × Nat)).lookup p).getD 4)

/-- The sort key order of `generate` (lines 441–445): Python tuple
comparison on `(priority_order rank, test_file, first covered line)`. -/
def suggestionSortKeyLe (s t : GapSuggestion) : Prop :=
  priorityRank s.priority < priorityRank t.priority ∨
    (priorityRank s.priority = priorityRank t.priority ∧
      (pyStrLt s.test_file t.test_file ∨
        (s.test_file = t.test_file ∧ s.covers_lines.headD 0 ≤ t.covers_lines.headD 0)))

instance : DecidableRel suggestionSortKeyLe := fun s t => by
  unfold suggestionSortKeyLe; infer_instance

theorem stringDataEq {a b : String} (h : a.data = b.data) : a = b := by
  cases a; cases b; exact congrArg String.mk h

instance : IsTrans GapSuggestion suggestionSortKeyLe := by
  constructor
  intro a b c hab hbc
  unfold suggestionSortKeyLe at *
  rcases hab with h1 | ⟨he1, h1⟩
  · rcases hbc with h2 | ⟨he2, _⟩
    · exact Or.inl (lt_trans h1 h2)
    · exact Or.inl (he2 ▸ h1)
  · rcases hbc with h2 | ⟨he2, h2⟩
    · exact Or.inl (he1 ▸ h2)
    · refine Or.inr ⟨he1.trans he2, ?_⟩
      rcases h1 with hs1 | ⟨hf1, hl1⟩
      · rcases h2 with hs2 | ⟨hf2, _⟩
        · exact Or.inl (charListLt_trans hs1 hs2)
        · exact Or.inl (hf2 ▸ hs1)
      · rcases h2 with hs2 | ⟨hf2, hl2⟩
        · exact Or.inl (hf1 ▸ hs2)
        · exact Or.inr ⟨hf1.trans hf2, le_trans hl1 hl2⟩

instance : IsTotal GapSuggestion suggestionSortKeyLe := by
  constructor
  intro a b
  unfold suggestionSortKeyLe
  rcases Nat.lt_trichotomy (priorityRank a.priority) (priorityRank b.priority) with h | h | h
  · exact Or.inl (Or.inl h)
  · rcases charListLt_trichotomy a.test_file.data b.test_file.data with hs | hs | hs
    · exact Or.inl (Or.inr ⟨h, Or.inl hs⟩)
    · have hf : a.test_file = b.test_file := stringDataEq hs
      rcases Nat.le_total (a.covers_lines.headD 0) (b.covers_lines.headD 0) with hl | hl
      · exact Or.inl (Or.inr ⟨h, Or.inr ⟨hf, hl⟩⟩)
      · exact Or.inr (Or.inr ⟨h.symm, Or.inr ⟨hf.symm, hl⟩⟩)
    · exact Or.inr (Or.inr ⟨h.symm, Or.inl hs⟩)
  · exact Or.inr (Or.inl h)

/-- `GapSuggestionGenerator.generate` (lines 426–447): one suggestion per
block, then the stable sort by `(priority rank, test_file, first line)`.
`List.insertionSort` is stable and therefore computes exactly what CPython's
stable `list.sort(key=...)` produces. -/
def GapSuggestionGenerator.generate (blocks : List UncoveredBlock) (filePath : String) :
    List GapSuggestion :=
  List.insertionSort suggestionSortKeyLe
    (blocks.filterMap (fun b => createSuggestion b filePath))

/-! ## Pipeline orchestrator `find_coverage_gaps` (lines 718–778) -/

/-- Result of trying to read one source file, the analogue of the
`open`/`read` attempt with its caught exception classes.  `ok` carries the
decoded text as its `splitlines()` line list together with the parse
oracle's answer for that text. -/
inductive ReadResult where
  | ok (sourceLines : List String) (parsed : Option PyModule)
  | notFound
  | permissionDenied
  | readError (msg : String)

/-- The read-only file system environment. -/
def FileSys := String → ReadResult

/-- `str(Path(source_root) / file_path)` for the relative POSIX paths this
program handles. -/
def joinPath (root : Option String) (p : String) : String :=
  match root with
  | some r => r ++ "/" ++ p
  | none => p

/-- `find_coverage_gaps` (lines 718–778), from the decoded report document:
parse the report, then for each file with missing lines read and analyze the
source, warning and skipping on read failure; per-file suggestion lists are
concatenated in report order and never re-sorted globally. -/
def find_coverage_gaps (doc : CovDocument) (source_root : Option String)
    (fs : FileSys) : List GapSuggestion × List String :=
  let report := CoverageParser.parse doc
  report.files.foldl (fun acc fileEntry =>
    let filePath := fileEntry.1
    let fileCov := fileEntry.2
    if fileCov.missing_lines.isEmpty then acc
    else
      let actualPath := joinPath source_root filePath
      match fs actualPath with
      | .notFound => (acc.1, acc.2 ++ [s!"Source file not found: {actualPath}"])
      | .permissionDenied => (acc.1, acc.2 ++ [s!"Permission denied reading: {actualPath}"])
      | .readError msg => (acc.1, acc.2 ++ [s!"Error reading {actualPath}: {msg}"])
      | .ok sourceLines parsed =>
        let blocks := GapAnalyzer.analyze
          { filePath := filePath, sourceLines := sourceLines,
            missingLines := fileCov.missing_lines } parsed
        (acc.1 ++ GapSuggestionGenerator.generate blocks filePath, acc.2)) ([], [])

/-! ## Protocol tool handler (`mcp_code_covered/tool.py`) -/

/-- `PRIORITY_SCORE` (line 25). -/
def PRIORITY_SCORE : List (String × Nat) :=
  [("critical", 3), ("high", 2), ("medium", 1), ("low", 0)]

/-- `PRIORITY_SCORE.get(p, 0)`. -/
def priorityScoreGet (p : String) : Nat := (PRIORITY_SCORE.lookup p).getD 0

/-- `PRIORITY_ORDER` (line 26). -/
def PRIORITY_ORDER : List String := ["critical", "high", "medium", "low"]

/-- `_analyze_coverage_data` (lines 167–222): the `find_coverage_gaps` loop
re-implemented over the raw parsed document. -/
def analyzeCoverageData (coverageData : CovDocument) (repoRoot : Option String)
    (fs : FileSys) : List GapSuggestion × List String :=
  coverageData.files.foldl (fun acc entry =>
    let missingLines := pyIntSet entry.2.missing_lines
    if missingLines.isEmpty then acc
    else
      let actualPath := joinPath repoRoot entry.1
      match fs actualPath with
      | .notFound => (acc.1, acc.2 ++ [s!"Source file not found: {actualPath}"])
      | .permissionDenied => (acc.1, acc.2 ++ [s!"Permission denied reading: {actualPath}"])
      | .readError msg => (acc.1, acc.2 ++ [s!"Error reading {actualPath}: {msg}"])
      | .ok sourceLines parsed =>
        let blocks := GapAnalyzer.analyze
          { filePath := entry.1, sourceLines := sourceLines,
            missingLines := missingLines } parsed
        (acc.1 ++ GapSuggestionGenerator.generate blocks entry.1, acc.2)) ([], [])

/-- Step 3 of `handle` (lines 69–76): keep suggestions whose score is at or
above the filter's score; a falsy (`None`/empty) filter keeps everything. -/
def mcpPriorityFilter (priorityFilter : Option String)
    (suggestions : List GapSuggestion) : List GapSuggestion :=
  match priorityFilter with
  | some p =>
    if p ≠ "" then
      suggestions.filter (fun s => priorityScoreGet s.priority ≥ priorityScoreGet p)
    else suggestions
  | none => suggestions

/-- Step 4 of `handle` (lines 78–83): per-priority counts over the filtered,
untruncated list. -/
def countByPriority (suggestions : List GapSuggestion) : List (String × Nat) :=
  PRIORITY_ORDER.map (fun p => (p, (suggestions.filter (fun s => s.priority = p)).length))

/-- `_compute_exit_code` (lines 260–283). -/
def computeExitCode (suggestions : List GapSuggestion) (failOn : String) : Nat :=
  if failOn = "none" then 0
  else if failOn = "any" ∧ suggestions ≠ [] then 2
  else
    let threshold := priorityScoreGet failOn
    if suggestions.any (fun s => priorityScoreGet s.priority ≥ threshold) then 2 else 0

/-- CPython `round(q, 2)` (round half to even), on the exact rational. -/
def pyRound2 (q : Rat) : Rat :=
  let scaled := q * 100
  let n : Int := scaled.floor
  let frac := scaled - (n : Rat)
  let r : Int :=
    if frac < 1/2 then n
    else if 1/2 < frac then n + 1
    else if n % 2 = 0 then n else n + 1
  (r : Rat) / 100

/-- The result object of the response (`_build_result`, lines 225–257). -/
structure McpResult where
  coverage_percent : Rat
  files_analyzed : Nat
  files_with_gaps : Nat
  total_suggestions : Nat
  suggestions : List GapSuggestion
  by_priority : List (String × Nat)
deriving DecidableEq, Repr

/-- `_build_result` (lines 225–257): aggregate stats are raw array lengths
of the document (not deduplicated sets, unlike `CoverageParser`). -/
def buildResult (coverageData : CovDocument) (suggestions : List GapSuggestion)
    (totalSuggestions : Nat) (byPriority : List (String × Nat)) : McpResult :=
  let totals := coverageData.files.foldl (fun acc entry =>
    let executed := entry.2.executed_lines.length
    let missing := entry.2.missing_lines.length
    (acc.1 + executed, acc.2.1 + missing, acc.2.2 + if missing > 0 then 1 else 0))
    ((0 : Nat), (0 : Nat), (0 : Nat))
  let totalLines := totals.1 + totals.2.1
  let coveragePercent : Rat :=
    if totalLines > 0 then (totals.1 : Rat) / (totalLines : Rat) * 100 else 100
  { coverage_percent := pyRound2 coveragePercent
    files_analyzed := coverageData.files.length
    files_with_gaps := totals.2.2
    total_suggestions := totalSuggestions
    suggestions := suggestions
    by_priority := byPriority }

/-- `by_priority.get(k, 0)`. -/
def bpGet (bp : List (String × Nat)) (k : String) : Nat := (bp.lookup k).getD 0

/-- CPython `f"{q:.1f}"` fixed-point rendering for the non-negative
percentages this program prints. -/
def fmtFixed1 (q : Rat) : String :=
  let scaled := q * 10
  let n : Int := scaled.floor
  let frac := scaled - (n : Rat)
  let r : Int :=
    if frac < 1/2 then n
    else if 1/2 < frac then n + 1
    else if n % 2 = 0 then n else n + 1
  let rn := r.toNat
  let whole := rn / 10
  let tenth := rn % 10
  s!"{whole}.{tenth}"

/-- The priority marker table of `_format_text_output`. -/
def priorityMarker (p : String) : String :=
  if p = "critical" then "[!!]"
  else if p = "high" then "[! ]"
  else if p = "medium" then "[  ]"
  else if p = "low" then "[  ]"
  else "[  ]"

/-- `_format_text_output` (lines 286–329). -/
def formatTextOutput (result : McpResult) (suggestions : List GapSuggestion) : String :=
  let eqLine := String.mk (List.replicate 60 '=')
  let cp := fmtFixed1 result.coverage_percent
  let fa := result.files_analyzed
  let fwg := result.files_with_gaps
  let ts := result.total_suggestions
  let bp := result.by_priority
  let nCrit := bpGet bp "critical"
  let nHigh := bpGet bp "high"
  let nMed := bpGet bp "medium"
  let nLow := bpGet bp "low"
  let header := [eqLine, "code-covered", eqLine,
    s!"Coverage: {cp}% ({fa} files analyzed)",
    s!"Files with gaps: {fwg}",
    "",
    s!"Missing tests: {ts}"]
  let counts :=
    (if nCrit > 0 then [s!"  [!!] CRITICAL: {nCrit}"] else [])
    ++ (if nHigh > 0 then [s!"  [!]  HIGH: {nHigh}"] else [])
    ++ (if nMed > 0 then [s!"  [  ] MEDIUM: {nMed}"] else [])
    ++ (if nLow > 0 then [s!"  [  ] LOW: {nLow}"] else [])
    ++ [""]
  let top :=
    if suggestions ≠ [] then
      ["Top suggestions:"]
      ++ ((suggestions.take 10).enum.flatMap (fun pair =>
          let i := pair.1 + 1
          let s := pair.2
          let marker := priorityMarker s.priority
          let tn := s.test_name
          let d := s.description
          [s!"  {i}. {marker} {tn}", s!"       {d}"]))
      ++ (if suggestions.length > 10 then
          let more := suggestions.length - 10
          [s!"  ... and {more} more"]
        else [])
    else []
  String.intercalate "\n" (header ++ counts ++ top)

/-- The response object of `handle`. -/
structure McpResponse where
  exit_code : Nat
  result : McpResult
  warnings : List String
  text : Option String := none
deriving DecidableEq, Repr

/-- `_error_response` (lines 332–345). -/
def errorResponse (message : String) : McpResponse :=
  { exit_code := 1
    result := { coverage_percent := 0
                files_analyzed := 0
                files_with_gaps := 0
                total_suggestions := 0
                suggestions := []
                by_priority := [("critical", 0), ("high", 0), ("medium", 0), ("low", 0)] }
    warnings := [message] }

/-- A protocol request, after the `_load_coverage` step (lines 117–164):
`coverage` holds either the decoded document (inline payload or resolved
artifact) or, as `Except.error`, the message a failed load hands to
`_error_response`; the load itself is I/O and JSON-shape checking outside
the embedding.  The remaining fields are `request.get(...)` results. -/
structure McpRequest where
  coverage : Except String CovDocument
  repo_root : Option String := none
  priority_filter : Option String := none
  fail_on : Option String := none
  limit : Option Int := none
  format : Option String := none

/-- The filtered (post step 3, pre-limit) suggestion list `handle` computes
for a successfully loaded document. -/
def filteredSuggestions (coverageData : CovDocument) (request : McpRequest)
    (fs : FileSys) : List GapSuggestion :=
  mcpPriorityFilter request.priority_filter
    (analyzeCoverageData coverageData request.repo_root fs).1

/-- `handle` (lines 29–114): load, analyze, filter, count, gate before the
limit, truncate, build result, sort warnings, optionally render text. -/
def handle (request : McpRequest) (fs : FileSys) : McpResponse :=
  match request.coverage with
  | .error msg => errorResponse msg
  | .ok coverageData =>
    let analyzed := analyzeCoverageData coverageData request.repo_root fs
    let warnings := analyzed.2
    let suggestionsFiltered := mcpPriorityFilter request.priority_filter analyzed.1
    let totalSuggestions := suggestionsFiltered.length
    let byPriority := countByPriority suggestionsFiltered
    let failOn := request.fail_on.getD "none"
    let exitCode := computeExitCode suggestionsFiltered failOn
    let suggestionsLimited :=
      match request.limit with
      | some l => if l > 0 then suggestionsFiltered.take l.toNat else suggestionsFiltered
      | none => suggestionsFiltered
    let result := buildResult coverageData suggestionsLimited totalSuggestions byPriority
    { exit_code := exitCode
      result := result
      warnings := List.insertionSort pyStrLe warnings
      text := if request.format = some "text" then
          some (formatTextOutput result suggestionsLimited)
        else none }

/-! ## CLI priority filter (`cli.py`, lines 65–66) -/

/-- `cmd_gaps`'s filter: `[s for s in suggestions if s.priority == args.priority]`,
applied only when `args.priority` is truthy — a strict equality filter. -/
def cmdGapsPriorityFilter (priority : Option String)
    (suggestions : List GapSuggestion) : List GapSuggestion :=
  match priority with
  | some p => if p ≠ "" then suggestions.filter (fun s => s.priority = p) else suggestions
  | none => suggestions

/-! ## Specification-side definitions for the fallback grouping (C6)

`specRun`/`specMaximalRuns` are written from the spec's words ("partition
into maximal runs of consecutive integers"), independently of the source's
accumulator loop, to serve as the refinement target. -/

/-- Longest prefix of `l` continuing the consecutive run that ends at `x`,
together with the remainder. -/
def specRun (x : Nat) : List Nat → List Nat × List Nat
  | [] => ([], [])
  | y :: ys =>
    if y = x + 1 then
      let r := specRun y ys
      (y :: r.1, r.2)
    else ([], y :: ys)

theorem specRun_snd_length (x : Nat) (l : List Nat) :
    (specRun x l).2.length ≤ l.length := by
  induction l generalizing x with
  | nil => simp [specRun]
  | cons y ys ih =>
    simp only [specRun]
    split
    · exact le_trans (ih y) (by simp)
    · simp

/-- Modelled from the spec (§4.2): partition a sorted list into its maximal
runs of consecutive integers. -/
def specMaximalRuns : List Nat → List (List Nat)
  | [] => []
  | x :: xs => (x :: (specRun x xs).1) :: specMaximalRuns (specRun x xs).2
termination_by l => l.length
decreasing_by
  have := specRun_snd_length x xs
  simp only [List.length_cons]
  omega

/-! ## Concrete inputs for counterexamples and witnesses -/

/-- C5's spec-given source: `def foo(x):` / ` if x > 0:` / `  return
"positive"` / ` return "not positive"`, as CPython parses it. -/
def modC5 : PyModule :=
  { body := [
      .funcDef "foo" 1 4 [
        .ifStmt 2 3 (.atom "x > 0" 2 2 [.name "x" 2 2, .atom "0" 2 2 []])
          [.ret 3 3 (some (.atom "\x27positive\x27" 3 3 []))] [],
        .ret 4 4 (some (.atom "\x27not positive\x27" 4 4 []))] ] }

def ctxC5 : AnCtx :=
  { filePath := "foo.py"
    sourceLines := ["def foo(x):", " if x > 0:", "  return \"positive\"",
      " return \"not positive\""]
    missingLines := [3] }

/-- C3's source: a conditional at line 2 whose body statements sit on lines
3 and 4; only lines 2 and 3 are missing. -/
def modC3cex : PyModule :=
  { body := [
      .funcDef "f" 1 4 [
        .ifStmt 2 4 (.name "a" 2 2)
          [.exprStmt 3 3 [.name "x" 3 3, .atom "1" 3 3 []],
           .exprStmt 4 4 [.name "y" 4 4, .atom "2" 4 4 []]] []] ] }

def ctxC3cex : AnCtx :=
  { filePath := "c3.py"
    sourceLines := ["def f(a):", "    if a:", "        x = 1", "        y = 2"]
    missingLines := [2, 3] }

/-- C4's source: an `if`/`else` whose else body is a lone `return` at line 5,
with lines 2 and 5 missing — the `if_false_branch` block and the
`return_statement` block then share the span `(5, 5)`. -/
def modC4cex : PyModule :=
  { body := [
      .funcDef "f" 1 5 [
        .ifStmt 2 5 (.name "a" 2 2)
          [.exprStmt 3 3 [.name "x" 3 3, .atom "1" 3 3 []]]
          [.ret 5 5 (some (.name "a" 5 5))]] ] }

def ctxC4cex : AnCtx :=
  { filePath := "c4.py"
    sourceLines := ["def f(a):", "    if a:", "        x = 1", "    else:",
      "        return a"]
    missingLines := [2, 5] }

/-! ## Helper facts about the analyzer's per-node dispatch -/

theorem analyzeIf_seen (ctx : AnCtx) (st : AnState) (l : Nat) (t : PyExpr)
    (b o : List PyStmt) : (analyzeIf ctx st l t b o).seen = st.seen := by
  by_cases h1 : ((b.map PyStmt.lineno).any fun x => decide (x ∈ ctx.missingLines)) = true <;>
  by_cases h2 : ((o.map PyStmt.lineno).any fun x => decide (x ∈ ctx.missingLines)) = true <;>
  simp [analyzeIf, h1, h2]

theorem analyzeExcept_seen (ctx : AnCtx) (st : AnState) (l e : Nat)
    (t : Option PyExpr) : (analyzeExcept ctx st l e t).seen = st.seen := rfl

theorem analyzeReturn_seen (ctx : AnCtx) (st : AnState) (l : Nat)
    (v : Option PyExpr) : (analyzeReturn ctx st l v).seen = st.seen := rfl

theorem analyzeRaise_seen (ctx : AnCtx) (st : AnState) (l : Nat)
    (v : Option PyExpr) : (analyzeRaise ctx st l v).seen = st.seen := rfl

theorem analyzeLoop_seen (ctx : AnCtx) (st : AnState) (l e : Nat)
    (lt : String) : (analyzeLoop ctx st l e lt).seen = st.seen := rfl

/-- The span dedup key survives the dispatch: whatever `_analyze_node`
dispatches to, the `seen` component of the state it returns is the one the
dedup step just wrote. -/
theorem analyzeNode_seen_of_new (ctx : AnCtx) (st : AnState) (n : PyNode)
    (hline : n.lineno ∈ ctx.missingLines)
    (hnew : (n.lineno, n.endLineno) ∉ st.seen) :
    (analyzeNode ctx st n).seen = st.seen ++ [(n.lineno, n.endLineno)] := by
  unfold analyzeNode
  rw [if_pos hline, if_neg hnew]
  cases n with
  | expr e => rfl
  | stmt s =>
    cases s with
    | ifStmt l e t b o => exact analyzeIf_seen _ _ _ _ _ _
    | exceptHandler l e t b => rfl
    | ret l e v => rfl
    | raiseStmt l e v => rfl
    | forStmt l e tg it b o => rfl
    | whileStmt l e t b o => rfl
    | funcDef a b c d => rfl
    | classDef a b c d => rfl
    | tryStmt a b c d e2 f => rfl
    | exprStmt a b c => rfl

theorem analyzeNode_of_seen (ctx : AnCtx) (st : AnState) (n : PyNode)
    (hmem : (n.lineno, n.endLineno) ∈ st.seen) : analyzeNode ctx st n = st := by
  unfold analyzeNode
  by_cases hline : n.lineno ∈ ctx.missingLines
  · simp [hline, hmem]
  · simp [hline]

theorem analyzeNode_not_missing (ctx : AnCtx) (st : AnState) (n : PyNode)
    (hline : n.lineno ∉ ctx.missingLines) : analyzeNode ctx st n = st := by
  unfold analyzeNode
  simp [hline]

theorem analyzeNode_mem_seen (ctx : AnCtx) (st : AnState) (n : PyNode)
    (hline : n.lineno ∈ ctx.missingLines) :
    (n.lineno, n.endLineno) ∈ (analyzeNode ctx st n).seen := by
  by_cases hmem : (n.lineno, n.endLineno) ∈ st.seen
  · rw [analyzeNode_of_seen ctx st n hmem]; exact hmem
  · rw [analyzeNode_seen_of_new ctx st n hline hmem]
    simp

/-- C4: (corrected) Re-analysis of a node whose `(lineno, end_lineno)` span
is already recorded is a no-op: the per-run dedup set guards the *analyzed
node's* span, so re-encountering the same node span (e.g. through two
ancestor walks) never emits again — dispatching a node records its span,
already-recorded spans leave the state untouched, and dispatch is
idempotent.  (Distinct nodes may still emit blocks sharing a
`(start_line, end_line)` pair; see the counterexample.) -/
theorem C4_node_span_dedup (ctx : AnCtx) (st : AnState) (n : PyNode) :
    ((n.lineno, n.endLineno) ∈ st.seen → analyzeNode ctx st n = st) ∧
    (n.lineno ∈ ctx.missingLines →
      (n.lineno, n.endLineno) ∈ (analyzeNode ctx st n).seen) ∧
    analyzeNode ctx (analyzeNode ctx st n) n = analyzeNode ctx st n := by
  refine ⟨analyzeNode_of_seen ctx st n, analyzeNode_mem_seen ctx st n, ?_⟩
  by_cases hline : n.lineno ∈ ctx.missingLines
  · exact analyzeNode_of_seen _ _ _ (analyzeNode_mem_seen _ _ _ hline)
  · rw [analyzeNode_not_missing ctx st n hline]
    exact analyzeNode_not_missing ctx st n hline

/-- C4 witness: a `return` node at line 2 of the C4 context — with its span
pre-recorded the dispatch is a no-op, and from a fresh state the dispatch
records its span. -/
theorem C4_node_span_dedup_witness :
    analyzeNode ctxC4cex { seen := [(2, 2)] } (.stmt (.ret 2 2 none)) =
      { seen := [(2, 2)] } ∧
    ((2 : Nat), (2 : Nat)) ∈ (analyzeNode ctxC4cex { } (.stmt (.ret 2 2 none))).seen :=
  ⟨(C4_node_span_dedup ctxC4cex { seen := [(2, 2)] } (.stmt (.ret 2 2 none))).1 (by decide),
   (C4_node_span_dedup ctxC4cex { } (.stmt (.ret 2 2 none))).2.1 (by decide)⟩

/-- C4 counterexample: analyzing `def f(a): if a: x = 1 else: return a` with
missing lines {2, 5} emits an `if_false_branch` block *and* a
`return_statement` block that both span `(5, 5)` — the emitted sequence does
contain two blocks with the same `(start_line, end_line)` pair. -/
theorem C4_counterexample :
    ((GapAnalyzer.analyze ctxC4cex (some modC4cex)).map
        (fun b => (b.start_line, b.end_line))) = [(5, 5), (5, 5)] ∧
    ¬ ((GapAnalyzer.analyze ctxC4cex (some modC4cex)).map
        (fun b => (b.start_line, b.end_line))).Nodup := by
  constructor
  · decide
  · decide

/-- C3: (corrected) For a conditional whose own line is missing and whose
span is not yet deduplicated, `_analyze_if` emits: an `if_true_branch`
block when the true body meets the missing set — starting at the
construct's line and ending at the *maximum body-statement line* (not the
last missing-intersecting one), with condition `when {cond} is True` — and,
independently, an `if_false_branch` block spanning the else body's own
statement-line range with condition `when {cond} is False`; zero, one or
two blocks in total. -/
theorem C3_if_branch_emission (ctx : AnCtx) (st : AnState) (l e : Nat)
    (test : PyExpr) (body orelse : List PyStmt)
    (hline : l ∈ ctx.missingLines)
    (hnew : (l, e) ∉ st.seen) :
    (analyzeNode ctx st (.stmt (.ifStmt l e test body orelse))).blocks =
      st.blocks
      ++ (if (body.map PyStmt.lineno).any (fun x => decide (x ∈ ctx.missingLines)) then
            [{ file_path := ctx.filePath
               start_line := l
               end_line := if (body.map PyStmt.lineno).isEmpty then l
                 else listMax (body.map PyStmt.lineno)
               function_name := st.currentFunction
               class_name := st.currentClass
               code_snippet := getCodeSnippet ctx l
                 (if (body.map PyStmt.lineno).isEmpty then l
                  else listMax (body.map PyStmt.lineno))
               block_type := "if_true_branch"
               condition := some ("when " ++ getSourceSegment test ++ " is True") }]
          else [])
      ++ (if (orelse.map PyStmt.lineno).any (fun x => decide (x ∈ ctx.missingLines)) then
            [{ file_path := ctx.filePath
               start_line := listMin (orelse.map PyStmt.lineno)
               end_line := listMax (orelse.map PyStmt.lineno)
               function_name := st.currentFunction
               class_name := st.currentClass
               code_snippet := getCodeSnippet ctx (listMin (orelse.map PyStmt.lineno))
                 (listMax (orelse.map PyStmt.lineno))
               block_type := "if_false_branch"
               condition := some ("when " ++ getSourceSegment test ++ " is False") }]
          else []) := by
  unfold analyzeNode
  simp only [PyNode.lineno, PyStmt.lineno, PyNode.endLineno, PyStmt.endLineno]
  rw [if_pos hline, if_neg hnew]
  by_cases h1 : ((body.map PyStmt.lineno).any fun x => decide (x ∈ ctx.missingLines)) = true <;>
  by_cases h2 : ((orelse.map PyStmt.lineno).any fun x => decide (x ∈ ctx.missingLines)) = true <;>
  simp [analyzeIf, h1, h2, toString]

/-- C3 witness: the corrected emission rule applied to the concrete `if` of
the C3 context produces exactly one `if_true_branch` block spanning lines
2–4. -/
theorem C3_if_branch_emission_witness :
    (analyzeNode ctxC3cex { } (.stmt (.ifStmt 2 4 (.name "a" 2 2)
        [.exprStmt 3 3 [.name "x" 3 3, .atom "1" 3 3 []],
         .exprStmt 4 4 [.name "y" 4 4, .atom "2" 4 4 []]] []))).blocks =
      [{ file_path := "c3.py"
         start_line := 2
         end_line := 4
         function_name := none
         class_name := none
         code_snippet := "    if a:\n        x = 1\n        y = 2"
         block_type := "if_true_branch"
         condition := some "when a is True" }] := by
  rw [C3_if_branch_emission ctxC3cex { } 2 4 (.name "a" 2 2)
    [.exprStmt 3 3 [.name "x" 3 3, .atom "1" 3 3 []],
     .exprStmt 4 4 [.name "y" 4 4, .atom "2" 4 4 []]] [] (by decide) (by decide)]
  decide

/-- C3 counterexample: in the C3 context the true body's missing-intersecting
lines end at 3, yet the emitted `if_true_branch` block ends at line 4 (the
body's last statement line); no `if_true_branch` block ending at 3 exists. -/
theorem C3_counterexample :
    (∃ b ∈ GapAnalyzer.analyze ctxC3cex (some modC3cex),
        b.block_type = "if_true_branch" ∧ b.start_line = 2 ∧ b.end_line = 4) ∧
    ¬ ∃ b ∈ GapAnalyzer.analyze ctxC3cex (some modC3cex),
        b.block_type = "if_true_branch" ∧ b.end_line = 3 := by
  constructor
  · decide
  · decide

/-- C5: (corrected) On the spec's example source with missing line {3}, the
analysis yields exactly one block: a `return_statement` spanning line 3
whose condition is `return 'positive'` (the returned value) — the branch
condition `x > 0` appears in no emitted block, because the `if` line itself
(line 2) bears no missing line and so `_analyze_if` never runs. -/
theorem C5_return_statement_block :
    GapAnalyzer.analyze ctxC5 (some modC5) =
      [{ file_path := "foo.py"
         start_line := 3
         end_line := 3
         function_name := some "foo"
         class_name := none
         code_snippet := "  return \"positive\""
         block_type := "return_statement"
         condition := some "return \x27positive\x27" }] := by decide

/-- C5 counterexample: no emitted block both covers line 3, mentions
`x > 0` in its condition, and has type `if_true_branch` or
`return_statement` — though the analysis is non-empty. -/
theorem C5_counterexample :
    (GapAnalyzer.analyze ctxC5 (some modC5) ≠ []) ∧
    ¬ ∃ b ∈ GapAnalyzer.analyze ctxC5 (some modC5),
        (b.start_line ≤ 3 ∧ 3 ≤ b.end_line) ∧
        (b.condition.any (fun c => pyContains c "x > 0")) = true ∧
        (b.block_type = "if_true_branch" ∨ b.block_type = "return_statement") := by
  constructor
  · decide
  · decide

/-! ## C1: ordering of the suggestion sequence -/

/-- The spec's ordering property: priority rank (critical ≤ high ≤ medium ≤
low) is non-decreasing along the list. -/
def priorityNondecreasing (l : List GapSuggestion) : Prop :=
  l.Pairwise (fun s t => priorityRank s.priority ≤ priorityRank t.priority)

/-- C1: (corrected) Each *per-file* suggestion list produced by
`GapSuggestionGenerator.generate` is sorted with non-decreasing priority
rank; `find_coverage_gaps` concatenates these per-file lists in report
order without a global re-sort, so the concatenated sequence need not be
globally sorted once more than one file contributes (see the
counterexample). -/
theorem C1_per_file_generate_sorted (blocks : List UncoveredBlock) (filePath : String) :
    priorityNondecreasing (GapSuggestionGenerator.generate blocks filePath) := by
  have hs := List.sorted_insertionSort suggestionSortKeyLe
    (blocks.filterMap (fun b => createSuggestion b filePath))
  unfold GapSuggestionGenerator.generate priorityNondecreasing
  refine List.Pairwise.imp ?_ hs
  intro a b hab
  rcases hab with h | ⟨he, _⟩
  · exact le_of_lt h
  · exact le_of_eq he

/-- C1 counterexample inputs: `a.py` (first in the report) is syntactically
invalid and contributes a `low` fallback suggestion; `b.py` contributes a
`critical` raise-statement suggestion. -/
def docC1 : CovDocument :=
  ⟨[("a.py", { missing_lines := [1, 2] }), ("b.py", { missing_lines := [2] })]⟩

def modC1b : PyModule :=
  ⟨[.funcDef "g" 1 2 [.raiseStmt 2 2 (some (.name "ValueError" 2 2))]]⟩

def fsC1 : FileSys := fun p =>
  if p = "a.py" then .ok ["def broken(:"] none
  else if p = "b.py" then .ok ["def g():", "    raise ValueError"] (some modC1b)
  else .notFound

/-- C1 counterexample: the pipeline output for the two-file report is
`[low, critical]` — priority rank strictly decreases from the first
suggestion to the second. -/
theorem C1_counterexample :
    ((find_coverage_gaps docC1 none fsC1).1.map (fun s => s.priority)) =
      ["low", "critical"] ∧
    ¬ priorityNondecreasing (find_coverage_gaps docC1 none fsC1).1 := by
  refine ⟨by decide, ?_⟩
  unfold priorityNondecreasing
  decide

/-! ## C6: syntax-error fallback refines the spec's run partition -/

theorem groupConsecutiveGo_spec (ls : List Nat) :
    ∀ (cur : List Nat) (x : Nat) (acc : List (List Nat)),
      groupConsecutiveGo ls (cur ++ [x]) acc =
        acc ++ ((cur ++ x :: (specRun x ls).1) :: specMaximalRuns (specRun x ls).2) := by
  induction ls with
  | nil =>
    intro cur x acc
    simp [groupConsecutiveGo, specRun, specMaximalRuns]
  | cons l ls ih =>
    intro cur x acc
    simp only [groupConsecutiveGo, List.getLastD_concat]
    by_cases h : l = x + 1
    · rw [if_pos h]
      have hrec := ih (cur ++ [x]) l acc
      rw [hrec]
      simp [specRun, h]
    · rw [if_neg h]
      have hrec := ih [] l (acc ++ [cur ++ [x]])
      simp only [List.nil_append] at hrec
      rw [hrec]
      simp [specRun, h, specMaximalRuns]

/-- The source's accumulator grouping computes exactly the spec's maximal
runs of consecutive integers. -/
theorem groupConsecutive_eq_spec (l : List Nat) :
    groupConsecutive l = specMaximalRuns l := by
  cases l with
  | nil => simp [groupConsecutive, specMaximalRuns]
  | cons x xs =>
    have h := groupConsecutiveGo_spec xs [] x []
    simp only [List.nil_append] at h
    simp [groupConsecutive, h, specMaximalRuns]

/-- C6: On parse failure (`SyntaxError` fallback) with a non-empty missing
set, `analyze` returns — without raising — the sorted missing lines
partitioned into maximal consecutive runs, one `code_block` per run
spanning the run's first and last line; the result is non-empty and every
block is a `code_block`. -/
theorem C6_syntax_error_fallback (ctx : AnCtx) (hne : ctx.missingLines ≠ []) :
    GapAnalyzer.analyze ctx none =
      (specMaximalRuns (pySorted ctx.missingLines)).map (fun group =>
        { file_path := ctx.filePath
          start_line := group.headD 0
          end_line := group.getLastD 0
          code_snippet := getCodeSnippet ctx (group.headD 0) (group.getLastD 0)
          block_type := "code_block" }) ∧
    GapAnalyzer.analyze ctx none ≠ [] ∧
    ∀ b ∈ GapAnalyzer.analyze ctx none, b.block_type = "code_block" := by
  have heq : GapAnalyzer.analyze ctx none =
      (specMaximalRuns (pySorted ctx.missingLines)).map (fun group =>
        { file_path := ctx.filePath
          start_line := group.headD 0
          end_line := group.getLastD 0
          code_snippet := getCodeSnippet ctx (group.headD 0) (group.getLastD 0)
          block_type := "code_block" }) := by
    show analyzeByLines ctx = _
    unfold analyzeByLines
    rw [groupConsecutive_eq_spec]
  refine ⟨heq, ?_, ?_⟩
  · rw [heq]
    have hlen : (pySorted ctx.missingLines).length = ctx.missingLines.length :=
      List.length_insertionSort _ _
    cases hs : pySorted ctx.missingLines with
    | nil =>
      exfalso
      rw [hs] at hlen
      exact hne (List.eq_nil_of_length_eq_zero hlen.symm)
    | cons a as => simp [hs, specMaximalRuns]
  · intro b hb
    rw [heq] at hb
    simp only [List.mem_map] at hb
    obtain ⟨g, _, rfl⟩ := hb
    rfl

/-- C6 witness context: invalid source, missing set {5, 1, 2}. -/
def ctxC6w : AnCtx :=
  { filePath := "bad.py"
    sourceLines := ["aa", "bb", "cc", "dd", "ee"]
    missingLines := [5, 1, 2] }

/-- C6 witness: the fallback on missing lines {5, 1, 2} yields exactly the
two maximal runs [1, 2] and [5] as `code_block`s. -/
theorem C6_syntax_error_fallback_witness :
    GapAnalyzer.analyze ctxC6w none =
      [{ file_path := "bad.py", start_line := 1, end_line := 2,
         code_snippet := "aa\nbb", block_type := "code_block" },
       { file_path := "bad.py", start_line := 5, end_line := 5,
         code_snippet := "ee", block_type := "code_block" }] := by
  rw [(C6_syntax_error_fallback ctxC6w (by decide)).1, ← groupConsecutive_eq_spec]
  decide

/-! ## C7: `coverage_percent` -/

/-- C7: For every `FileCoverage` and every `CoverageReport`,
`coverage_percent` is `covered/(covered+missing)*100` whenever the total is
non-zero, and exactly `100.0` when the covered and missing counts are both
zero (the zero-total special case the property defines). -/
theorem C7_coverage_percent_formula (fc : FileCoverage) (r : CoverageReport) :
    ((fc.covered_lines.length + fc.missing_lines.length ≠ 0 →
        fc.coverage_percent =
          (fc.covered_lines.length : Rat) /
            ((fc.covered_lines.length : Rat) + (fc.missing_lines.length : Rat)) * 100) ∧
      (fc.covered_lines.length = 0 → fc.missing_lines.length = 0 →
        fc.coverage_percent = 100)) ∧
    ((r.total_covered + r.total_missing ≠ 0 →
        r.coverage_percent =
          (r.total_covered : Rat) /
            ((r.total_covered : Rat) + (r.total_missing : Rat)) * 100) ∧
      (r.total_covered = 0 → r.total_missing = 0 → r.coverage_percent = 100)) := by
  refine ⟨⟨?_, ?_⟩, ?_, ?_⟩
  · intro h
    unfold FileCoverage.coverage_percent
    rw [if_neg h]
    push_cast
    ring
  · intro h1 h2
    unfold FileCoverage.coverage_percent
    rw [if_pos (by omega)]
  · intro h
    unfold CoverageReport.coverage_percent
    rw [if_neg h]
    push_cast
    ring
  · intro h1 h2
    unfold CoverageReport.coverage_percent
    rw [if_pos (by omega)]

def fcC7w : FileCoverage :=
  { path := "p.py", covered_lines := [10], missing_lines := [20],
    excluded_lines := [], missing_branches := [] }

def crC7w : CoverageReport := { files := [] }

/-- C7 witness: one covered and one missing line give 50; zero totals give
100. -/
theorem C7_coverage_percent_witness :
    fcC7w.coverage_percent = 50 ∧ crC7w.coverage_percent = 100 := by
  constructor
  · have h := (C7_coverage_percent_formula fcC7w crC7w).1.1 (by decide)
    rw [h]
    norm_num [fcC7w]
  · exact (C7_coverage_percent_formula fcC7w crC7w).2.2 rfl rfl

/-! ## C8: suggested test file paths -/

/-- The parent directory segment (`parts[-2]`) of a path with at least two
components. -/
def parentSeg (p : String) : String :=
  (pathParts p).getD ((pathParts p).length - 2) ""

theorem string_data_append (a b : String) : (a ++ b).data = a.data ++ b.data := rfl

/-- Right-and-left cancellation for the test-file naming scheme. -/
theorem testFile_name_inj {a b s : String}
    (h : "tests/test_" ++ a ++ "_" ++ s ++ ".py" = "tests/test_" ++ b ++ "_" ++ s ++ ".py") :
    a = b := by
  apply stringDataEq
  have hd := congrArg String.data h
  simp only [string_data_append, List.append_assoc] at hd
  have hd2 := List.append_cancel_left hd
  exact List.append_cancel_right hd2

/-- C8: `_suggest_test_file` is a pure function of the path:
`utils/validator.py` and `data/validator.py` map to different test files;
`src/validator.py` maps to `tests/test_validator.py` because `src` is on the
parent ignore-list {src, lib, ., app}; and any two paths with the same final
component but different, non-ignored parent segments map to different test
files. -/
theorem C8_suggest_test_file :
    (suggestTestFile "utils/validator.py" ≠ suggestTestFile "data/validator.py") ∧
    (suggestTestFile "src/validator.py" = "tests/test_validator.py") ∧
    ∀ p1 p2 : String,
      2 ≤ (pathParts p1).length →
      2 ≤ (pathParts p2).length →
      (pathParts p1).getLastD "" = (pathParts p2).getLastD "" →
      parentSeg p1 ≠ parentSeg p2 →
      ¬ (parentSeg p1 = "src" ∨ parentSeg p1 = "lib" ∨ parentSeg p1 = "." ∨ parentSeg p1 = "app") →
      ¬ (parentSeg p2 = "src" ∨ parentSeg p2 = "lib" ∨ parentSeg p2 = "." ∨ parentSeg p2 = "app") →
      suggestTestFile p1 ≠ suggestTestFile p2 := by
  refine ⟨by decide, by decide, ?_⟩
  intro p1 p2 h1 h2 hfn hpar hskip1 hskip2 heq
  unfold parentSeg at hpar hskip1 hskip2
  unfold suggestTestFile at heq
  rw [if_pos h1, if_pos h2, if_pos hskip1, if_pos hskip2] at heq
  rw [congrArg pathStem hfn] at heq
  exact hpar (testFile_name_inj heq)

/-- C8 witness: the collision-avoidance consequence at a fresh pair of
paths. -/
theorem C8_suggest_test_file_witness :
    suggestTestFile "pkg/widget.py" ≠ suggestTestFile "core/widget.py" :=
  C8_suggest_test_file.2.2 "pkg/widget.py" "core/widget.py"
    (by decide) (by decide) (by decide) (by decide) (by decide) (by decide)

/-! ## C9: CLI priority filter vs protocol priority filter -/

/-- C9: For each of the four priorities, the `gaps` command's filter keeps
exactly the suggestions whose priority *equals* the chosen one (so it drops
higher severities too), while the protocol adapter's `priority_filter`
keeps exactly the suggestions whose score is at or above the chosen
severity; in particular a `critical` suggestion is dropped by the CLI
filter for any other choice but always kept by the protocol filter. -/
theorem C9_priority_filters (suggestions : List GapSuggestion) (p : String)
    (hp : p ∈ (["critical", "high", "medium", "low"] : List String)) :
    (∀ s, s ∈ cmdGapsPriorityFilter (some p) suggestions ↔
        s ∈ suggestions ∧ s.priority = p) ∧
    (∀ s, s ∈ mcpPriorityFilter (some p) suggestions ↔
        s ∈ suggestions ∧ priorityScoreGet p ≤ priorityScoreGet s.priority) ∧
    (∀ s, s ∈ suggestions → s.priority = "critical" → p ≠ "critical" →
        s ∉ cmdGapsPriorityFilter (some p) suggestions ∧
        s ∈ mcpPriorityFilter (some p) suggestions) := by
  have hpne : p ≠ "" := by fin_cases hp <;> decide
  have hcli : ∀ s, s ∈ cmdGapsPriorityFilter (some p) suggestions ↔
      s ∈ suggestions ∧ s.priority = p := by
    intro s
    simp [cmdGapsPriorityFilter, hpne, List.mem_filter]
  have hmcp : ∀ s, s ∈ mcpPriorityFilter (some p) suggestions ↔
      s ∈ suggestions ∧ priorityScoreGet p ≤ priorityScoreGet s.priority := by
    intro s
    simp [mcpPriorityFilter, hpne, List.mem_filter, ge_iff_le]
  refine ⟨hcli, hmcp, ?_⟩
  intro s hs hcrit hne
  constructor
  · intro hmem
    have hp' := ((hcli s).mp hmem).2
    exact hne (hcrit.symm.trans hp').symm
  · refine (hmcp s).mpr ⟨hs, ?_⟩
    rw [hcrit]
    fin_cases hp <;> decide

def sugC9w : GapSuggestion :=
  { test_name := "test_t_raises_error", test_file := "tests/test_t.py",
    description := "lines 1-1", covers_lines := [1], priority := "critical",
    code_template := "", setup_hints := [], block_type := "raise_statement" }

/-- C9 witness: with `p = "low"`, a critical suggestion is dropped by the
CLI filter but kept by the protocol filter. -/
theorem C9_priority_filters_witness :
    sugC9w ∉ cmdGapsPriorityFilter (some "low") [sugC9w] ∧
    sugC9w ∈ mcpPriorityFilter (some "low") [sugC9w] :=
  (C9_priority_filters [sugC9w] "low" (by decide)).2.2 sugC9w (by decide) rfl (by decide)

/-! ## C2: gating and counts are computed before the limit truncation -/

/-- C2: With `fail_on="any"` and `limit=1`, whenever the filtered suggestion
list has at least two entries the handler returns `exit_code = 2`, reports
`total_suggestions` as the full pre-limit count, and returns exactly one
suggestion in the result. -/
theorem C2_gating_before_limit (request : McpRequest) (fs : FileSys)
    (coverageData : CovDocument)
    (hcov : request.coverage = Except.ok coverageData)
    (hfail : request.fail_on = some "any")
    (hlimit : request.limit = some 1)
    (hge2 : 2 ≤ (filteredSuggestions coverageData request fs).length) :
    (handle request fs).exit_code = 2 ∧
    (handle request fs).result.total_suggestions =
      (filteredSuggestions coverageData request fs).length ∧
    (handle request fs).result.suggestions.length = 1 := by
  obtain ⟨cov, rr, pf, fo, lim, fmt⟩ := request
  simp only at hcov hfail hlimit
  subst hcov hfail hlimit
  unfold filteredSuggestions at hge2 ⊢
  simp only at hge2 ⊢
  have hne : mcpPriorityFilter pf (analyzeCoverageData coverageData rr fs).1 ≠ [] := by
    intro h0
    rw [h0] at hge2
    simp at hge2
  refine ⟨?_, ?_, ?_⟩
  · show computeExitCode (mcpPriorityFilter pf (analyzeCoverageData coverageData rr fs).1) "any" = 2
    unfold computeExitCode
    rw [if_neg (by decide : ¬ ("any" : String) = "none")]
    rw [if_pos ⟨rfl, hne⟩]
  · rfl
  · show ((mcpPriorityFilter pf (analyzeCoverageData coverageData rr fs).1).take
        ((1 : Int).toNat)).length = 1
    rw [List.length_take]
    omega

/-- C2 witness inputs: one unparseable file with two separated missing
lines, yielding two `low` suggestions. -/
def docC2w : CovDocument := ⟨[("w.py", { missing_lines := [1, 3] })]⟩

def fsC2w : FileSys := fun p =>
  if p = "w.py" then .ok ["aa", "bb", "cc"] none else .notFound

def reqC2w : McpRequest :=
  { coverage := .ok docC2w, fail_on := some "any", limit := some 1 }

/-- C2 witness: on the two-gap report the handler gates on the full set
(exit 2) while returning a single suggestion. -/
theorem C2_gating_before_limit_witness :
    2 ≤ (filteredSuggestions docC2w reqC2w fsC2w).length ∧
    (handle reqC2w fsC2w).exit_code = 2 ∧
    (handle reqC2w fsC2w).result.suggestions.length = 1 :=
  ⟨by decide,
   (C2_gating_before_limit reqC2w fsC2w docC2w rfl rfl rfl (by decide)).1,
   (C2_gating_before_limit reqC2w fsC2w docC2w rfl rfl rfl (by decide)).2.2⟩

/-! ## C10: unrecognized `fail_on` values -/

/-- C10: (corrected) A `fail_on` outside {none, critical, high, any} never
produces a request-shape error (`exit_code` is never 1): the value is looked
up in the priority score table with default 0.  For any such value other
than `"medium"` — including `"low"` and misspellings — the threshold is 0,
so the handler returns 2 exactly when the filtered list is non-empty; but
`"medium"` is in the table with score 1, so it gates on medium-or-above
rather than on mere non-emptiness. -/
theorem C10_unrecognized_fail_on (request : McpRequest) (fs : FileSys)
    (coverageData : CovDocument) (f : String)
    (hcov : request.coverage = Except.ok coverageData)
    (hfail : request.fail_on = some f)
    (hnotin : ¬ (f = "none" ∨ f = "critical" ∨ f = "high" ∨ f = "any")) :
    (handle request fs).exit_code ≠ 1 ∧
    (f ≠ "medium" →
      ((handle request fs).exit_code = 2 ↔
        filteredSuggestions coverageData request fs ≠ [])) ∧
    (f = "medium" →
      ((handle request fs).exit_code = 2 ↔
        ∃ s ∈ filteredSuggestions coverageData request fs,
          1 ≤ priorityScoreGet s.priority)) := by
  obtain ⟨cov, rr, pf, fo, lim, fmt⟩ := request
  simp only at hcov hfail
  subst hcov hfail
  push_neg at hnotin
  obtain ⟨hn, hc, hh, ha⟩ := hnotin
  unfold filteredSuggestions
  simp only []
  have hexit : (handle ⟨Except.ok coverageData, rr, pf, some f, lim, fmt⟩ fs).exit_code =
      (if (mcpPriorityFilter pf (analyzeCoverageData coverageData rr fs).1).any
          (fun s => priorityScoreGet s.priority ≥ priorityScoreGet f) then 2 else 0) := by
    show computeExitCode (mcpPriorityFilter pf (analyzeCoverageData coverageData rr fs).1) f = _
    unfold computeExitCode
    rw [if_neg hn, if_neg (fun hco => ha hco.1)]
  refine ⟨?_, ?_, ?_⟩
  · rw [hexit]
    split <;> simp
  · intro hmed
    have hscore : priorityScoreGet f = 0 := by
      by_cases hlow : f = "low"
      · subst hlow; decide
      · have hb1 : (f == "critical") = false := beq_eq_false_iff_ne.mpr hc
        have hb2 : (f == "high") = false := beq_eq_false_iff_ne.mpr hh
        have hb3 : (f == "medium") = false := beq_eq_false_iff_ne.mpr hmed
        have hb4 : (f == "low") = false := beq_eq_false_iff_ne.mpr hlow
        simp [priorityScoreGet, PRIORITY_SCORE, List.lookup, hb1, hb2, hb3, hb4]
    rw [hexit, hscore]
    constructor
    · intro h2
      by_cases hanyb : (mcpPriorityFilter pf (analyzeCoverageData coverageData rr fs).1).any
          (fun s => priorityScoreGet s.priority ≥ 0) = true
      · obtain ⟨x, hx, _⟩ := List.any_eq_true.mp hanyb
        exact List.ne_nil_of_mem hx
      · rw [if_neg (by simpa using hanyb)] at h2
        omega
    · intro hne0
      obtain ⟨x, hx⟩ := List.exists_mem_of_ne_nil _ hne0
      rw [if_pos (List.any_eq_true.mpr ⟨x, hx, by simp⟩)]
  · intro hmed
    subst hmed
    have hscore : priorityScoreGet "medium" = 1 := by decide
    rw [hexit, hscore]
    constructor
    · intro h2
      by_cases hanyb : (mcpPriorityFilter pf (analyzeCoverageData coverageData rr fs).1).any
          (fun s => priorityScoreGet s.priority ≥ 1) = true
      · obtain ⟨x, hx, hxp⟩ := List.any_eq_true.mp hanyb
        exact ⟨x, hx, by simpa using hxp⟩
      · rw [if_neg (by simpa using hanyb)] at h2
        omega
    · intro hex
      obtain ⟨x, hx, hxp⟩ := hex
      rw [if_pos (List.any_eq_true.mpr ⟨x, hx, by simpa using hxp⟩)]

/-- C10 input: one unparseable file yielding a single `low` suggestion. -/
def docC10 : CovDocument := ⟨[("m.py", { missing_lines := [1] })]⟩

def fsC10 : FileSys := fun p =>
  if p = "m.py" then .ok ["zz"] none else .notFound

def reqC10cex : McpRequest := { coverage := .ok docC10, fail_on := some "medium" }

def reqC10w : McpRequest := { coverage := .ok docC10, fail_on := some "wat" }

/-- C10 counterexample: with `fail_on = "medium"` the filtered list is a
non-empty singleton of priority `low`, yet the handler returns
`exit_code = 0` — not the 2 the claim predicts for every unrecognized-value
request with non-empty filtered suggestions ("medium" maps to score 1, not
0). -/
theorem C10_counterexample :
    ((filteredSuggestions docC10 reqC10cex fsC10).map (fun s => s.priority)) = ["low"] ∧
    (handle reqC10cex fsC10).exit_code = 0 := by
  constructor
  · decide
  · decide

/-- C10 witness: a genuinely unrecognized value (`"wat"`) gates on mere
non-emptiness, returning 2 on the same report. -/
theorem C10_unrecognized_fail_on_witness :
    (handle reqC10w fsC10).exit_code = 2 := by
  have h := (C10_unrecognized_fail_on reqC10w fsC10 docC10 "wat" rfl rfl (by decide)).2.1
    (by decide)
  exact h.mpr (by decide)
